import Mathlib

/-!
Verification of the japanir-automation pipeline (selection/ranking and
publish-orchestration logic), shallowly embedded from the Python sources
src/IR-JsonToX.py, src/IR-JsonToX-Image.py, src/1_ir_summarizer.py,
src/3_image_generator.py and src/4_IR_ImageGenerator.py.

Strings are modelled as Lean String values (sequences of Unicode code
points, matching Python string indexing and len).  Machine I/O (HTTP
fetch, tweet posting, SMTP, Playwright capture) is modelled by explicit
outcome parameters; exceptions are modelled by Except / outcome sums.
-/

/-- One internal IR record, the dict produced by extract_ir_info
(src/IR-JsonToX.py lines 200-221). -/
structure IRRecord where
  id : Nat
  date : String
  stock_code : String
  company_name : String
  ir_type : String
  importance : Option String
  short_summary : String
  link : String
deriving DecidableEq, Repr

/-- One raw WordPress REST post, with the jir_* meta fields possibly
absent (Python dict .get with default). -/
structure WpPost where
  id : Nat
  date : String
  link : String
  jir_stock_code : Option String
  jir_company_name : Option String
  jir_ir_type : Option String
  jir_importance : Option String
  jir_short_summary : Option String
deriving DecidableEq, Repr

/-- Embeds IRDataProcessor.extract_ir_info (src/IR-JsonToX.py lines
200-221): missing meta fields default to the empty string. -/
def extract_ir_info (wp_post : WpPost) : IRRecord :=
  { id := wp_post.id
    date := wp_post.date
    stock_code := wp_post.jir_stock_code.getD ""
    company_name := wp_post.jir_company_name.getD ""
    ir_type := wp_post.jir_ir_type.getD ""
    importance := some (wp_post.jir_importance.getD "")
    short_summary := wp_post.jir_short_summary.getD ""
    link := wp_post.link }

/-- Embeds the CATEGORY_PRIORITY table (src/IR-JsonToX.py lines 46-73,
identical in src/IR-JsonToX-Image.py and src/1_ir_summarizer.py). -/
def CATEGORY_PRIORITY : List (String × Nat) :=
  [("tender_offer", 1), ("m_and_a_alliance", 2),
   ("financial_summary", 3), ("business_update", 4), ("earnings_guidance", 5),
   ("dividend", 6), ("share_buyback", 7), ("capital_policy", 8),
   ("share_cancellation", 9),
   ("corporate_restructuring", 10), ("product_announcement", 11),
   ("executive_change", 12),
   ("sales_update", 13), ("esg_sustainability", 14), ("stock_option", 15),
   ("disclosure_update", 16), ("general_ir", 17)]

/-- Embeds get_category_priority (src/IR-JsonToX.py lines 101-111):
CATEGORY_PRIORITY.get(ir_type, 99). -/
def get_category_priority (ir_type : String) : Nat :=
  match CATEGORY_PRIORITY.find? (fun p => p.1 == ir_type) with
  | some p => p.2
  | none => 99

/-- The character class of the regex r'[★☆â˜…](\d+)' in
get_importance_stars (src/IR-JsonToX.py line 94): the five code points
star, white star, a-circumflex, small tilde, horizontal ellipsis (the
last three being the mojibake bytes of a UTF-8 star read as latin-1). -/
def isStarGlyph (c : Char) : Bool :=
  c == '★' || c == '☆' || c == 'â' || c == '˜' || c == '…'

/-- The code points of the zero digit of every Unicode Nd decimal-digit
block (each block is ten consecutive code points): Python's backslash-d
in re matches exactly the Nd category, not just ASCII 0-9. -/
def ND_ZERO_POINTS : List Nat :=
  [48, 1632, 1776, 1984, 2406, 2534, 2662, 2790, 2918, 3046, 3174, 3302,
   3430, 3558, 3664, 3792, 3872, 4160, 4240, 6112, 6160, 6470, 6608, 6784,
   6800, 6992, 7088, 7232, 7248, 42528, 43216, 43264, 43472, 43504, 43600,
   44016, 65296, 66720, 68912, 69734, 69872, 69942, 70096, 70384, 70736,
   70864, 71248, 71360, 71472, 71904, 72016, 72784, 73040, 73120, 92768,
   92864, 93008, 120782, 120792, 120802, 120812, 120822, 123200, 123632,
   125264, 130032]

/-- Python's backslash-d character class: any Unicode decimal digit
(category Nd), e.g. ASCII 4, fullwidth 4 or Arabic-Indic 3. -/
def pyIsDigit (c : Char) : Bool :=
  ND_ZERO_POINTS.any (fun z => decide (z ≤ c.toNat ∧ c.toNat ≤ z + 9))

/-- The decimal value of one Unicode Nd digit: its offset from the zero
of its block (0 on non-digits, unused). -/
def pyDigitVal (c : Char) : Nat :=
  match ND_ZERO_POINTS.find? (fun z => decide (z ≤ c.toNat ∧ c.toNat ≤ z + 9)) with
  | some z => c.toNat - z
  | none => 0

/-- Decimal value of a digit run, as Python int() of the matched group
(int() accepts any Nd digits). -/
def digitsVal (ds : List Char) : Nat :=
  ds.foldl (fun acc c => acc * 10 + pyDigitVal c) 0

/-- Embeds re.search of r'[★☆â˜…](\d+)': scan left to right for the
first position holding a star glyph immediately followed by at least one
decimal digit (any Unicode Nd digit), returning the value of the maximal
digit run there. -/
def starScan : List Char → Option Nat
  | [] => none
  | c :: rest =>
    if isStarGlyph c && pyIsDigit (rest.headD 'x') then
      some (digitsVal (rest.takeWhile pyIsDigit))
    else starScan rest

/-- Embeds get_importance_stars (src/IR-JsonToX.py lines 80-98): falsy
input (absent or empty string) gives 0, otherwise the regex search;
no match gives 0. -/
def get_importance_stars : Option String → Nat
  | none => 0
  | some s =>
    if s.data.isEmpty then 0
    else
      match starScan s.data with
      | some n => n
      | none => 0

/-- Spec-side predicate, from the claim wording only: the string
contains an accepted star glyph immediately followed by a decimal
digit (Unicode Nd).  Used to state the characterisation of
get_importance_stars. -/
def hasStarDigit : List Char → Bool
  | c :: d :: rest => (isStarGlyph c && pyIsDigit d) || hasStarDigit (d :: rest)
  | _ => false

/-- Derived priority rank of a record (spec section 3). -/
def priorityRank (r : IRRecord) : Nat := get_category_priority r.ir_type

/-- Derived importance score of a record (spec section 3). -/
def importanceScore (r : IRRecord) : Nat := get_importance_stars r.importance

/-- The comparison used by sort_by_priority: Python tuple order on the
key (get_category_priority(ir_type), -get_importance_stars(importance)),
i.e. lexicographic by ascending rank then descending star count. -/
def sortKeyLe (a b : IRRecord) : Bool :=
  decide (priorityRank a < priorityRank b ∨
    (priorityRank a = priorityRank b ∧ importanceScore b ≤ importanceScore a))

/-- Embeds IRDataProcessor.sort_by_priority (src/IR-JsonToX.py lines
248-261, identical in the other two scripts): Python sorted() is a
stable merge sort on the key tuple. -/
def sort_by_priority (ir_list : List IRRecord) : List IRRecord :=
  ir_list.mergeSort sortKeyLe

/-- Embeds IRDataProcessor.select_top_n (src/IR-JsonToX.py lines
291-307, identical in the other two scripts). -/
def select_top_n (ir_list : List IRRecord) (n : Nat) : List IRRecord :=
  if n ≤ ir_list.length then ir_list.take n else ir_list

/-- Predicate selecting the records tied on both sort keys with the
given rank and star values; used to state sort stability. -/
def tiedKey (p s : Nat) (r : IRRecord) : Bool :=
  (priorityRank r == p) && (importanceScore r == s)

/-- Python truthiness of an optional environment string: None and the
empty string are falsy. -/
def truthy : Option String → Bool
  | none => false
  | some s => !s.data.isEmpty

/-- Exit code at the entry points: sys.exit(0 if success else 1). -/
def exit_code (success : Bool) : Nat := if success then 0 else 1

/-- Outcome of the HTTP GET inside WordPressIRFetcher.fetch_irs. -/
inductive FetchOutcome where
  | success (data : List WpPost)
  | timeout
  | requestError (msg : String)
deriving DecidableEq, Repr

/-- Embeds WordPressIRFetcher.fetch_irs (src/IR-JsonToX.py lines
141-187): both the timeout handler and the RequestException handler
swallow the fault and return the empty list. -/
def fetch_irs : FetchOutcome → List WpPost
  | .success data => data
  | .timeout => []
  | .requestError _ => []

/-- The relevant environment variables read by main and
main_with_retry via os.getenv (unset is none). -/
structure Env where
  x_api_key : Option String
  x_api_secret : Option String
  x_access_token : Option String
  x_access_secret : Option String
  gmail_app_password : Option String
deriving DecidableEq, Repr

/-- Result of one call to main: the returned boolean, whether
TwitterPoster.post was invoked, and with which text. -/
structure MainResult where
  success : Bool
  posted : Bool
  posted_text : Option String
deriving DecidableEq, Repr

/-- Outcome of one attempt of main as seen by main_with_retry: a normal
return carrying the boolean, or a raised exception with its message. -/
inductive AttemptOutcome where
  | ok (success : Bool)
  | exn (msg : String)
deriving DecidableEq, Repr

/-- Observable result of main_with_retry: the returned boolean, the
list of notification calls (error message, date, time range) made to
GmailNotifier.send_error_notification, and how many 10-second sleeps
were performed between attempts. -/
structure RetryResult where
  success : Bool
  notifications : List (String × String × String)
  sleeps : Nat
deriving DecidableEq, Repr

/-- Embeds the retry loop of main_with_retry (src/IR-JsonToX.py lines
607-643, identical in src/IR-JsonToX-Image.py lines 462-496): the fuel
argument counts the iterations left in range(attempt, max_retries + 1);
a True return exits; a False return just continues (no sleep); an
exception on the final attempt notifies once if GMAIL_APP_PASSWORD is
truthy and returns False; an earlier exception sleeps 10 seconds and
continues; falling off the loop returns False. -/
def retry_loop (run : Nat → AttemptOutcome) (gmail_password : Option String)
    (date_str time_range : String) (max_retries : Nat) :
    Nat → Nat → RetryResult
  | _, 0 => ⟨false, [], 0⟩
  | attempt, fuel + 1 =>
    match run attempt with
    | .ok true => ⟨true, [], 0⟩
    | .ok false =>
        retry_loop run gmail_password date_str time_range max_retries
          (attempt + 1) fuel
    | .exn msg =>
      let error_msg := "試行 " ++ toString attempt ++ " 失敗: " ++ msg
      if attempt = max_retries then
        if truthy gmail_password then
          ⟨false, [(error_msg, date_str, time_range)], 0⟩
        else
          ⟨false, [], 0⟩
      else
        let r := retry_loop run gmail_password date_str time_range max_retries
          (attempt + 1) fuel
        ⟨r.success, r.notifications, r.sleeps + 1⟩

/-- Embeds main_with_retry (src/IR-JsonToX.py lines 593-643): attempts
are numbered 1 .. max_retries, each attempt re-runs the whole of main
(abstracted as the run function); the time range passed to the notifier
is the f-string time_start-time_end. -/
def main_with_retry (run : Nat → AttemptOutcome) (gmail_password : Option String)
    (date_str time_start time_end : String) (max_retries : Nat) : RetryResult :=
  retry_loop run gmail_password date_str (time_start ++ "-" ++ time_end)
    max_retries 1 max_retries

/-- Python str.title() on ASCII text: a letter is uppercased when the
previous character is not a letter, lowercased otherwise. -/
def pyTitleGo : List Char → Bool → List Char
  | [], _ => []
  | c :: rest, prevCased =>
    (if prevCased then c.toLower else c.toUpper) :: pyTitleGo rest c.isAlpha

/-- Python ir_type.replace('_', ' ').title() used for unknown category
display names. -/
def pyTitleReplace (s : String) : String :=
  String.mk (pyTitleGo (s.data.map (fun c => if c == '_' then ' ' else c)) false)

/-- Python sep.join(lines): the separator is placed between
consecutive elements. -/
def pyJoin (sep : String) : List String → String
  | [] => ""
  | a :: as => as.foldl (fun acc x => acc ++ sep ++ x) a

namespace IRJsonToX

/-- Embeds IRDataProcessor.remove_duplicate_companies (src/IR-JsonToX.py
lines 263-289), threading the seen_companies set: an empty stock_code
is skipped with continue, a seen one is dropped, otherwise the record is
kept and its code remembered. -/
def remove_duplicate_companies_go (seen : List String) :
    List IRRecord → List IRRecord
  | [] => []
  | ir :: rest =>
    if ir.stock_code = "" then remove_duplicate_companies_go seen rest
    else if ir.stock_code ∈ seen then remove_duplicate_companies_go seen rest
    else ir :: remove_duplicate_companies_go (ir.stock_code :: seen) rest

/-- Embeds IRDataProcessor.remove_duplicate_companies (src/IR-JsonToX.py
lines 263-289), starting from an empty seen set. -/
def remove_duplicate_companies (ir_list : List IRRecord) : List IRRecord :=
  remove_duplicate_companies_go [] ir_list

/-- The full selection pipeline of main, steps 4-6 (src/IR-JsonToX.py
lines 547-554): priority sort, company dedup, top-n truncation.  This is
the operation the spec calls Ranker.select. -/
def select (ir_list : List IRRecord) (n : Nat) : List IRRecord :=
  select_top_n (remove_duplicate_companies (sort_by_priority ir_list)) n

/-- Embeds the type_mapping table of TweetGenerator._format_ir_type
(src/IR-JsonToX.py lines 379-397). -/
def TYPE_MAPPING : List (String × String) :=
  [("financial_summary", "Earnings"), ("share_buyback", "Share Buyback"),
   ("share_cancellation", "Share Cancellation"), ("dividend", "Dividend"),
   ("earnings_guidance", "Guidance"), ("executive_change", "Executive"),
   ("sales_update", "Sales Update"), ("disclosure_update", "Disclosure"),
   ("capital_policy", "Capital Policy"), ("tender_offer", "TOB"),
   ("corporate_restructuring", "Restructuring"), ("m_and_a_alliance", "M&A"),
   ("product_announcement", "Product"), ("business_update", "Business Update"),
   ("stock_option", "Stock Option"), ("esg_sustainability", "ESG"),
   ("general_ir", "IR")]

/-- Embeds TweetGenerator._format_ir_type (src/IR-JsonToX.py lines
369-398). -/
def format_ir_type (ir_type : String) : String :=
  match TYPE_MAPPING.find? (fun p => p.1 == ir_type) with
  | some p => p.2
  | none => pyTitleReplace ir_type

/-- The two footer lines appended by generate_tweet (src/IR-JsonToX.py
lines 356-357), as one string joined by the newline of the join. -/
def tweetFooter : String := "📊 japanir.jp/en\n#JapanStocks #IR"

/-- The ellipsis-and-footer suffix appended by the truncation branch of
generate_tweet (src/IR-JsonToX.py line 364). -/
def truncationSuffix : String := "\n\n...\n\n📊 japanir.jp/en\n#JapanStocks #IR"

/-- The lines assembled by TweetGenerator.generate_tweet before joining
(src/IR-JsonToX.py lines 336-357).  The strftime rendering of date_str
is abstracted as the formatted_date argument. -/
def generate_tweet_lines (ir_list : List IRRecord) (formatted_date : String) :
    List String :=
  ["🇯🇵 JapanIR Highlights", formatted_date, ""]
    ++ (ir_list.map (fun ir =>
          ["▪️ " ++ ir.company_name ++ " (" ++ ir.stock_code ++ ")",
           "   " ++ ir.short_summary ++ " [" ++ format_ir_type ir.ir_type ++ "]",
           ""])).flatten
    ++ ["📊 japanir.jp/en", "#JapanStocks #IR"]

/-- The joined tweet text before the length check (src/IR-JsonToX.py
line 359). -/
def tweet_body (ir_list : List IRRecord) (formatted_date : String) : String :=
  pyJoin "\n" (generate_tweet_lines ir_list formatted_date)

/-- Embeds TweetGenerator.generate_tweet (src/IR-JsonToX.py lines
314-367) with max_length as in the constructor default 2000: above the
cap the text is cut to max_length - 80 characters and the
ellipsis-and-footer suffix is appended. -/
def generate_tweet (ir_list : List IRRecord) (formatted_date : String)
    (max_length : Nat) : String :=
  let tweet := tweet_body ir_list formatted_date
  if max_length < tweet.length then
    String.mk (tweet.data.take (max_length - 80)) ++ truncationSuffix
  else tweet

/-- Embeds main (src/IR-JsonToX.py lines 504-590).  The HTTP outcome,
the environment, and the boolean returned by TwitterPoster.post are
explicit parameters; the strftime formatting of date_str inside
generate_tweet is abstracted as formatted_date.  An empty fetch result
returns True immediately; dry-run and missing X credentials skip the
post and return True. -/
def main (fetch_outcome : FetchOutcome) (env : Env) (formatted_date : String)
    (dry_run : Bool) (post_result : Bool) : MainResult :=
  let wp_posts := fetch_irs fetch_outcome
  if wp_posts.length = 0 then ⟨true, false, none⟩
  else
    let ir_list := wp_posts.map extract_ir_info
    let ir_list := sort_by_priority ir_list
    let ir_list := remove_duplicate_companies ir_list
    let ir_list := select_top_n ir_list 5
    let tweet_text := generate_tweet ir_list formatted_date 2000
    if dry_run then ⟨true, false, none⟩
    else if !(truthy env.x_api_key && truthy env.x_api_secret &&
              truthy env.x_access_token && truthy env.x_access_secret) then
      ⟨true, false, none⟩
    else ⟨post_result, true, some tweet_text⟩

end IRJsonToX

namespace IRSummarizer

/-- Embeds IRDataProcessor.remove_duplicate_companies
(src/1_ir_summarizer.py lines 147-157): a record is kept only when its
stock_code is truthy and not yet seen. -/
def remove_duplicate_companies_go (seen : List String) :
    List IRRecord → List IRRecord
  | [] => []
  | ir :: rest =>
    if ir.stock_code ≠ "" ∧ ir.stock_code ∉ seen then
      ir :: remove_duplicate_companies_go (ir.stock_code :: seen) rest
    else remove_duplicate_companies_go seen rest

/-- Embeds IRDataProcessor.remove_duplicate_companies
(src/1_ir_summarizer.py lines 147-157), from the empty seen set. -/
def remove_duplicate_companies (ir_list : List IRRecord) : List IRRecord :=
  remove_duplicate_companies_go [] ir_list

end IRSummarizer

namespace IRJsonToXImage

/-- Embeds IRDataProcessor.remove_duplicate_companies
(src/IR-JsonToX-Image.py lines 174-185), textually identical to the
variant in src/1_ir_summarizer.py. -/
def remove_duplicate_companies_go (seen : List String) :
    List IRRecord → List IRRecord
  | [] => []
  | ir :: rest =>
    if ir.stock_code ≠ "" ∧ ir.stock_code ∉ seen then
      ir :: remove_duplicate_companies_go (ir.stock_code :: seen) rest
    else remove_duplicate_companies_go seen rest

/-- Embeds IRDataProcessor.remove_duplicate_companies
(src/IR-JsonToX-Image.py lines 174-185), from the empty seen set. -/
def remove_duplicate_companies (ir_list : List IRRecord) : List IRRecord :=
  remove_duplicate_companies_go [] ir_list

/-- The ellipsis-and-footer suffix of the truncation branch of
TweetGenerator.generate_tweet (src/IR-JsonToX-Image.py line 233). -/
def truncationSuffix : String :=
  "\n\n...\n\n📊 japanir.jp/en\n\n#JapanStocks #IR"

/-- The footer configured in the truncation policy of the image-variant
generator: everything after the ellipsis. -/
def truncFooter : String := "📊 japanir.jp/en\n\n#JapanStocks #IR"

/-- The lines assembled by TweetGenerator.generate_tweet
(src/IR-JsonToX-Image.py lines 211-227); the strftime rendering of
date_str is abstracted as formatted_date. -/
def generate_tweet_lines (ir_list : List IRRecord) (formatted_date : String) :
    List String :=
  ["🇯🇵 Japan IR Highlights - " ++ formatted_date, ""]
    ++ (ir_list.map (fun ir =>
          ["✅ " ++ ir.company_name ++ " (" ++ ir.stock_code ++ ") - " ++
             pyTitleReplace ir.ir_type,
           "", ir.short_summary, ""])).flatten
    ++ ["📊 Full analysis: japanir.jp/en", "", "#JapanStocks #IR"]

/-- The joined tweet text before the length check
(src/IR-JsonToX-Image.py line 229). -/
def tweet_body (ir_list : List IRRecord) (formatted_date : String) : String :=
  pyJoin "\n" (generate_tweet_lines ir_list formatted_date)

/-- Embeds TweetGenerator.generate_tweet (src/IR-JsonToX-Image.py lines
206-236): above the cap the text is cut to max_length - 100 characters
and the ellipsis-and-footer suffix is appended. -/
def generate_tweet (ir_list : List IRRecord) (formatted_date : String)
    (max_length : Nat) : String :=
  let tweet := tweet_body ir_list formatted_date
  if max_length < tweet.length then
    String.mk (tweet.data.take (max_length - 100)) ++ truncationSuffix
  else tweet

/-- Embeds main (src/IR-JsonToX-Image.py lines 377-457), like the
IRJsonToX variant plus the optional image path, which does not affect
the returned value. -/
def main (fetch_outcome : FetchOutcome) (env : Env) (formatted_date : String)
    (image_path : Option String) (dry_run : Bool) (post_result : Bool) :
    MainResult :=
  let wp_posts := fetch_irs fetch_outcome
  if wp_posts.length = 0 then ⟨true, false, none⟩
  else
    let ir_list := wp_posts.map extract_ir_info
    let ir_list := sort_by_priority ir_list
    let ir_list := remove_duplicate_companies ir_list
    let ir_list := select_top_n ir_list 5
    let tweet_text := generate_tweet ir_list formatted_date 2000
    if dry_run then ⟨true, false, none⟩
    else if !(truthy env.x_api_key && truthy env.x_api_secret &&
              truthy env.x_access_token && truthy env.x_access_secret) then
      ⟨true, false, none⟩
    else ⟨post_result, true, some tweet_text⟩

end IRJsonToXImage

namespace IRImageGenerator

/-- Outcome of the Playwright block inside ImageGenerator.generate_image
(src/3_image_generator.py lines 85-137): the screenshot ran and the
output file does or does not exist, or the block raised. -/
inductive CaptureOutcome where
  | captured (file_exists : Bool)
  | raised (msg : String)
deriving DecidableEq, Repr

/-- Embeds ImageGenerator.generate_image (src/3_image_generator.py lines
54-137): a missing HTML file raises FileNotFoundError; a raised
Playwright error is printed and re-raised; otherwise the output path is
returned when the file exists and None when not. -/
def generate_image (html_exists : Bool) (capture : CaptureOutcome)
    (output_image_path : String) : Except String (Option String) :=
  if !html_exists then .error "FileNotFoundError"
  else
    match capture with
    | .captured true => .ok (some output_image_path)
    | .captured false => .ok none
    | .raised msg => .error msg

/-- Observable result of the image-generation main: the returned image
path (ok) or the propagated exception (error), and whether the
temporary HTML file was removed. -/
structure ImageMainResult where
  result : Except String (Option String)
  html_removed : Bool
deriving Repr

/-- Embeds main of src/4_IR_ImageGenerator.py (lines 52-146): an empty
IR list returns None before any HTML exists; otherwise the temporary
HTML is created, generate_image runs on it, and the cleanup
os.remove(html_path) is straight-line code after that call guarded only
by keep_html — it is not inside a try/finally, so a raised capture
error propagates with no removal. -/
def main (ir_list : List IRRecord) (capture : CaptureOutcome)
    (output_image_path : String) (keep_html : Bool) : ImageMainResult :=
  if ir_list.length = 0 then ⟨.ok none, false⟩
  else
    match generate_image true capture output_image_path with
    | .error msg => ⟨.error msg, false⟩
    | .ok image_path => ⟨.ok image_path, !keep_html⟩

end IRImageGenerator

/-- A sample record with a non-empty stock code, used by concrete
witnesses. -/
def rec7203 : IRRecord :=
  { id := 1, date := "2025-12-15T08:30:00", stock_code := "7203"
    company_name := "Toyota", ir_type := "dividend", importance := some "★4"
    short_summary := "Dividend increase announced"
    link := "https://japanir.jp/a" }

/-- A sample raw post mapping onto rec7203. -/
def wpPostA : WpPost :=
  { id := 1, date := "2025-12-15T08:30:00", link := "https://japanir.jp/a"
    jir_stock_code := some "7203", jir_company_name := some "Toyota"
    jir_ir_type := some "dividend", jir_importance := some "★4"
    jir_short_summary := some "Dividend increase announced" }

/-- An environment with all five credentials set. -/
def envAll : Env :=
  { x_api_key := some "k", x_api_secret := some "s"
    x_access_token := some "t", x_access_secret := some "a"
    gmail_app_password := some "pw" }

/-- A 64-character block, used to build a long summary whose length is
computed by append lemmas rather than deep evaluation. -/
def aChunk : String :=
  "aaaaaaaaaaaaaaaaaaaaaaaaaaaaaaaaaaaaaaaaaaaaaaaaaaaaaaaaaaaaaaaa"

/-- A 256-character block. -/
def aBlock256 : String := aChunk ++ aChunk ++ aChunk ++ aChunk

/-- A 1024-character block. -/
def aBlock1024 : String := aBlock256 ++ aBlock256 ++ aBlock256 ++ aBlock256

/-- A 2112-character summary string. -/
def longSummary : String := aBlock1024 ++ aBlock1024 ++ aChunk

/-- A record whose summary makes the assembled tweet longer than the
2000-character cap, used by the truncation witness. -/
def recLong : IRRecord :=
  { id := 2, date := "2025-12-15T09:00:00", stock_code := "9984"
    company_name := "SoftBank", ir_type := "m_and_a_alliance"
    importance := some "★5"
    short_summary := longSummary
    link := "https://japanir.jp/b" }

/-- A run of main whose publish step is rejected (TwitterPoster.post
returns False): used to refute claim C1. -/
def c1FailingMain : MainResult :=
  IRJsonToX.main (FetchOutcome.success [wpPostA]) envAll "December 15, 2025"
    false false

/-- The attempt behaviour induced by c1FailingMain: every attempt of
main returns False without raising. -/
def c1FailingRun : Nat → AttemptOutcome :=
  fun _ => AttemptOutcome.ok c1FailingMain.success

/-- A run of main whose fetch times out: fetch_irs swallows the fault
and returns the empty list. -/
def c2FaultyFetchMain : MainResult :=
  IRJsonToX.main FetchOutcome.timeout envAll "December 15, 2025" false true

/-- The attempt behaviour induced by c2FaultyFetchMain. -/
def c2FaultyFetchRun : Nat → AttemptOutcome :=
  fun _ => AttemptOutcome.ok c2FaultyFetchMain.success

/-- An environment with the X API key unset but everything else set. -/
def envNoKey : Env :=
  { x_api_key := none, x_api_secret := some "s"
    x_access_token := some "t", x_access_secret := some "a"
    gmail_app_password := some "pw" }

/-! Helper lemmas for the selection pipeline. -/

theorem sortKeyLe_trans (a b c : IRRecord) (hab : sortKeyLe a b = true)
    (hbc : sortKeyLe b c = true) : sortKeyLe a c = true := by
  simp only [sortKeyLe, decide_eq_true_eq] at hab hbc ⊢
  omega

theorem sortKeyLe_total (a b : IRRecord) :
    (sortKeyLe a b || sortKeyLe b a) = true := by
  simp only [sortKeyLe, Bool.or_eq_true, decide_eq_true_eq]
  omega

theorem select_top_n_eq_take (l : List IRRecord) (n : Nat) :
    select_top_n l n = l.take n := by
  by_cases h : n ≤ l.length
  · simp [select_top_n, h]
  · simp only [select_top_n, if_neg h]
    exact (List.take_of_length_le (by omega)).symm

theorem dedup_go_sublist (seen : List String) (l : List IRRecord) :
    (IRJsonToX.remove_duplicate_companies_go seen l).Sublist l := by
  induction l generalizing seen with
  | nil => simp [IRJsonToX.remove_duplicate_companies_go]
  | cons ir rest ih =>
    by_cases h1 : ir.stock_code = ""
    · simpa [IRJsonToX.remove_duplicate_companies_go, h1] using (ih seen).cons ir
    · by_cases h2 : ir.stock_code ∈ seen
      · simpa [IRJsonToX.remove_duplicate_companies_go, h1, h2] using (ih seen).cons ir
      · simpa [IRJsonToX.remove_duplicate_companies_go, h1, h2] using (ih _).cons₂ ir

theorem dedup_go_mem (seen : List String) (l : List IRRecord) (r : IRRecord)
    (hr : r ∈ IRJsonToX.remove_duplicate_companies_go seen l) :
    r.stock_code ≠ "" ∧ r.stock_code ∉ seen := by
  induction l generalizing seen with
  | nil => simp [IRJsonToX.remove_duplicate_companies_go] at hr
  | cons ir rest ih =>
    by_cases h1 : ir.stock_code = ""
    · rw [IRJsonToX.remove_duplicate_companies_go, if_pos h1] at hr
      exact ih seen hr
    · by_cases h2 : ir.stock_code ∈ seen
      · rw [IRJsonToX.remove_duplicate_companies_go, if_neg h1, if_pos h2] at hr
        exact ih seen hr
      · rw [IRJsonToX.remove_duplicate_companies_go, if_neg h1, if_neg h2] at hr
        rcases List.mem_cons.mp hr with rfl | hr'
        · exact ⟨h1, h2⟩
        · have := ih _ hr'
          exact ⟨this.1, fun hmem => this.2 (List.mem_cons_of_mem _ hmem)⟩

theorem dedup_go_pairwise (seen : List String) (l : List IRRecord) :
    (IRJsonToX.remove_duplicate_companies_go seen l).Pairwise
      (fun a b => a.stock_code ≠ b.stock_code) := by
  induction l generalizing seen with
  | nil => simp [IRJsonToX.remove_duplicate_companies_go]
  | cons ir rest ih =>
    by_cases h1 : ir.stock_code = ""
    · rw [IRJsonToX.remove_duplicate_companies_go, if_pos h1]; exact ih seen
    · by_cases h2 : ir.stock_code ∈ seen
      · rw [IRJsonToX.remove_duplicate_companies_go, if_neg h1, if_pos h2]; exact ih seen
      · rw [IRJsonToX.remove_duplicate_companies_go, if_neg h1, if_neg h2]
        refine List.Pairwise.cons ?_ (ih _)
        intro b hb
        have := (dedup_go_mem _ _ _ hb).2
        intro he
        exact this (he ▸ List.mem_cons_self _ _)

theorem dedup_go_id (seen : List String) (l : List IRRecord)
    (h : ∀ r ∈ l, r.stock_code ≠ "" ∧ r.stock_code ∉ seen)
    (hp : l.Pairwise (fun a b => a.stock_code ≠ b.stock_code)) :
    IRJsonToX.remove_duplicate_companies_go seen l = l := by
  induction l generalizing seen with
  | nil => rfl
  | cons ir rest ih =>
    have hir := h ir (List.mem_cons_self _ _)
    rw [IRJsonToX.remove_duplicate_companies_go, if_neg hir.1, if_neg hir.2]
    refine congrArg (ir :: ·) (ih _ ?_ hp.of_cons)
    intro r hr
    refine ⟨(h r (List.mem_cons_of_mem _ hr)).1, ?_⟩
    intro hmem
    rcases List.mem_cons.mp hmem with he | hmem'
    · exact List.rel_of_pairwise_cons hp hr he.symm
    · exact (h r (List.mem_cons_of_mem _ hr)).2 hmem'

theorem sorted_sort_by_priority (l : List IRRecord) :
    (sort_by_priority l).Pairwise (fun a b => sortKeyLe a b = true) :=
  List.sorted_mergeSort sortKeyLe_trans sortKeyLe_total l

theorem select_eq_take (l : List IRRecord) (n : Nat) :
    IRJsonToX.select l n =
      (IRJsonToX.remove_duplicate_companies (sort_by_priority l)).take n := by
  rw [IRJsonToX.select, select_top_n_eq_take]

theorem select_sublist_sort (l : List IRRecord) (n : Nat) :
    (IRJsonToX.select l n).Sublist (sort_by_priority l) := by
  rw [select_eq_take]
  exact (List.take_sublist _ _).trans (dedup_go_sublist [] _)

theorem sort_filter_tied (l : List IRRecord) (p s : Nat) :
    (sort_by_priority l).filter (tiedKey p s) = l.filter (tiedKey p s) := by
  have hpw : (l.filter (tiedKey p s)).Pairwise (fun a b => sortKeyLe a b = true) := by
    apply List.pairwise_of_forall_mem_list
    intro a ha b hb
    have ha' := (List.mem_filter.mp ha).2
    have hb' := (List.mem_filter.mp hb).2
    simp only [tiedKey, Bool.and_eq_true, beq_iff_eq] at ha' hb'
    simp only [sortKeyLe, decide_eq_true_eq]
    omega
  have hsub : (l.filter (tiedKey p s)).Sublist (sort_by_priority l) :=
    List.sublist_mergeSort sortKeyLe_trans sortKeyLe_total hpw (List.filter_sublist l)
  have hsub2 : (l.filter (tiedKey p s)).Sublist
      ((sort_by_priority l).filter (tiedKey p s)) := by
    have h2 := hsub.filter (tiedKey p s)
    rw [List.filter_filter] at h2
    simpa [Bool.and_self] using h2
  have hperm : ((sort_by_priority l).filter (tiedKey p s)).Perm
      (l.filter (tiedKey p s)) :=
    (List.mergeSort_perm l sortKeyLe).filter (tiedKey p s)
  exact (hsub2.eq_of_length hperm.length_eq.symm).symm

theorem dedup2_go_mem (seen : List String) (l : List IRRecord) (r : IRRecord)
    (hr : r ∈ IRSummarizer.remove_duplicate_companies_go seen l) :
    r.stock_code ≠ "" := by
  induction l generalizing seen with
  | nil => simp [IRSummarizer.remove_duplicate_companies_go] at hr
  | cons ir rest ih =>
    by_cases h : ir.stock_code ≠ "" ∧ ir.stock_code ∉ seen
    · rw [IRSummarizer.remove_duplicate_companies_go, if_pos h] at hr
      rcases List.mem_cons.mp hr with rfl | hr'
      · exact h.1
      · exact ih _ hr'
    · rw [IRSummarizer.remove_duplicate_companies_go, if_neg h] at hr
      exact ih seen hr

theorem image_dedup_go_eq (seen : List String) (l : List IRRecord) :
    IRJsonToXImage.remove_duplicate_companies_go seen l =
      IRSummarizer.remove_duplicate_companies_go seen l := by
  induction l generalizing seen with
  | nil => rfl
  | cons ir rest ih =>
    by_cases h : ir.stock_code ≠ "" ∧ ir.stock_code ∉ seen
    · rw [IRJsonToXImage.remove_duplicate_companies_go, if_pos h,
        IRSummarizer.remove_duplicate_companies_go, if_pos h, ih]
    · rw [IRJsonToXImage.remove_duplicate_companies_go, if_neg h,
        IRSummarizer.remove_duplicate_companies_go, if_neg h, ih]

/-- Claim C4: for every input record list and every maxCount n, the
output of the selection pipeline (sort by priority, dedup by company,
take top n) has length at most n and at most the input length; no two
output elements share a non-empty stock code; the output is ordered
non-decreasing by priority rank and non-increasing by importance score
within equal rank; and records tied on both keys keep their relative
input order (the tied-class subsequence of the output is a subsequence
of that of the input). -/
theorem select_ranked_selection_invariant (l : List IRRecord) (n : Nat) :
    (IRJsonToX.select l n).length ≤ n ∧
    (IRJsonToX.select l n).length ≤ l.length ∧
    (IRJsonToX.select l n).Pairwise (fun a b =>
      priorityRank a < priorityRank b ∨
        (priorityRank a = priorityRank b ∧ importanceScore b ≤ importanceScore a)) ∧
    (IRJsonToX.select l n).Pairwise (fun a b =>
      a.stock_code ≠ "" → a.stock_code ≠ b.stock_code) ∧
    (∀ p s : Nat,
      ((IRJsonToX.select l n).filter (tiedKey p s)).Sublist
        (l.filter (tiedKey p s))) := by
  refine ⟨?_, ?_, ?_, ?_, ?_⟩
  · rw [select_eq_take]
    exact List.length_take_le n _
  · have h1 : (IRJsonToX.select l n).length ≤ (sort_by_priority l).length :=
      (select_sublist_sort l n).length_le
    have h2 : (sort_by_priority l).length = l.length :=
      (List.mergeSort_perm l sortKeyLe).length_eq
    omega
  · have hpw := List.Pairwise.sublist (select_sublist_sort l n)
      (sorted_sort_by_priority l)
    exact hpw.imp (fun h => by
      simpa only [sortKeyLe, decide_eq_true_eq] using h)
  · have hpw : (IRJsonToX.select l n).Pairwise
        (fun a b => a.stock_code ≠ b.stock_code) := by
      rw [select_eq_take]
      exact List.Pairwise.sublist (List.take_sublist _ _) (dedup_go_pairwise [] _)
    refine hpw.imp ?_
    intro a b h
    exact fun _ => h
  · intro p s
    have := (select_sublist_sort l n).filter (tiedKey p s)
    rwa [sort_filter_tied] at this

/-- Claim C7: the selection pipeline is idempotent: applying it to its
own output with the same maxCount returns the output unchanged. -/
theorem select_idempotent (l : List IRRecord) (n : Nat) :
    IRJsonToX.select (IRJsonToX.select l n) n = IRJsonToX.select l n := by
  have hsorted : (IRJsonToX.select l n).Pairwise
      (fun a b => sortKeyLe a b = true) :=
    List.Pairwise.sublist (select_sublist_sort l n) (sorted_sort_by_priority l)
  have hmem : ∀ r ∈ IRJsonToX.select l n,
      r.stock_code ≠ "" ∧ r.stock_code ∉ ([] : List String) := by
    intro r hr
    rw [select_eq_take] at hr
    have hr' := (List.take_sublist _ _).subset hr
    exact ⟨(dedup_go_mem _ _ _ hr').1, by simp⟩
  have hpw2 : (IRJsonToX.select l n).Pairwise
      (fun a b => a.stock_code ≠ b.stock_code) := by
    rw [select_eq_take]
    exact List.Pairwise.sublist (List.take_sublist _ _) (dedup_go_pairwise [] _)
  have hlen : (IRJsonToX.select l n).length ≤ n := by
    rw [select_eq_take]; exact List.length_take_le n _
  have hsort : sort_by_priority (IRJsonToX.select l n) = IRJsonToX.select l n :=
    List.mergeSort_of_sorted hsorted
  have hdedup : IRJsonToX.remove_duplicate_companies (IRJsonToX.select l n) =
      IRJsonToX.select l n :=
    dedup_go_id [] _ hmem hpw2
  rw [IRJsonToX.select, hsort, hdedup, select_top_n_eq_take]
  exact List.take_of_length_le hlen

/-- Claim C8: in every variant of the deduplication step in the
repository a record with an empty stock code is dropped, and
consequently the final selection never contains an empty-code record. -/
theorem dedup_drops_empty_codes (l : List IRRecord) (n : Nat) :
    (∀ r ∈ IRJsonToX.remove_duplicate_companies l, r.stock_code ≠ "") ∧
    (∀ r ∈ IRSummarizer.remove_duplicate_companies l, r.stock_code ≠ "") ∧
    (∀ r ∈ IRJsonToXImage.remove_duplicate_companies l, r.stock_code ≠ "") ∧
    (∀ r ∈ IRJsonToX.select l n, r.stock_code ≠ "") := by
  refine ⟨?_, ?_, ?_, ?_⟩
  · intro r hr
    exact (dedup_go_mem _ _ _ hr).1
  · intro r hr
    exact dedup2_go_mem _ _ _ hr
  · intro r hr
    rw [IRJsonToXImage.remove_duplicate_companies, image_dedup_go_eq] at hr
    exact dedup2_go_mem _ _ _ hr
  · intro r hr
    rw [select_eq_take] at hr
    exact (dedup_go_mem _ _ _ ((List.take_sublist _ _).subset hr)).1

theorem dedup_drops_empty_codes_witness : rec7203.stock_code ≠ "" :=
  (dedup_drops_empty_codes [rec7203] 5).1 rec7203 (by decide)

/-! Helper lemmas for the importance parser. -/

theorem takeWhile_digits_append (ds rest : List Char)
    (hds : ∀ d ∈ ds, pyIsDigit d = true)
    (hrest : pyIsDigit (rest.headD 'x') = false) :
    (ds ++ rest).takeWhile pyIsDigit = ds := by
  induction ds with
  | nil =>
    cases rest with
    | nil => rfl
    | cons r rs =>
      simp only [List.headD] at hrest
      simp [List.takeWhile_cons, hrest]
  | cons d ds ih =>
    have hd := hds d (List.mem_cons_self _ _)
    simp only [List.cons_append, List.takeWhile_cons, hd, if_pos]
    rw [ih (fun x hx => hds x (List.mem_cons_of_mem _ hx))]

theorem starScan_of_no_match (l : List Char) (h : hasStarDigit l = false) :
    starScan l = none := by
  induction l with
  | nil => rfl
  | cons c rest ih =>
    cases rest with
    | nil =>
      have hx : pyIsDigit 'x' = false := by decide
      simp [starScan, hx]
    | cons d rs =>
      rw [hasStarDigit, Bool.or_eq_false_iff] at h
      rw [starScan]
      simp only [List.headD_cons, h.1, Bool.false_eq_true, if_false]
      exact ih h.2

theorem starScan_first_match (pre : List Char) (g : Char) (ds rest : List Char)
    (hg : isStarGlyph g = true) (hne : ds ≠ [])
    (hds : ∀ d ∈ ds, pyIsDigit d = true)
    (hrest : pyIsDigit (rest.headD 'x') = false)
    (hpre : hasStarDigit (pre ++ [g]) = false) :
    starScan (pre ++ g :: (ds ++ rest)) = some (digitsVal ds) := by
  induction pre with
  | nil =>
    cases ds with
    | nil => exact absurd rfl hne
    | cons d0 ds0 =>
      have hd0 := hds d0 (List.mem_cons_self _ _)
      rw [List.nil_append, starScan]
      rw [if_pos (by rw [List.cons_append]; simp [hg, hd0])]
      rw [takeWhile_digits_append _ _ hds hrest]
  | cons c pre ih =>
    have hcond : (isStarGlyph c &&
        pyIsDigit ((pre ++ g :: (ds ++ rest)).headD 'x')) = false := by
      cases pre with
      | nil =>
        rw [List.cons_append, List.nil_append] at hpre
        rw [hasStarDigit, Bool.or_eq_false_iff] at hpre
        simpa using hpre.1
      | cons p ps =>
        rw [List.cons_append, List.cons_append] at hpre
        rw [hasStarDigit, Bool.or_eq_false_iff] at hpre
        simpa using hpre.1
    have htail : hasStarDigit (pre ++ [g]) = false := by
      cases pre with
      | nil =>
        rfl
      | cons p ps =>
        rw [List.cons_append, List.cons_append] at hpre
        rw [hasStarDigit, Bool.or_eq_false_iff] at hpre
        simpa using hpre.2
    rw [List.cons_append, starScan, if_neg (by rw [hcond]; simp)]
    exact ih htail

/-- Claim C3 (amended): get_importance_stars is total, returns 0 on
absent input and on any string with no star glyph immediately followed
by a Unicode decimal digit, and returns the integer value of the first
matched digit run otherwise (which is not bounded by 9 for multi-digit
runs). -/
theorem importance_parser_characterisation :
    get_importance_stars none = 0 ∧
    (∀ s : String, hasStarDigit s.data = false →
      get_importance_stars (some s) = 0) ∧
    (∀ (pre : List Char) (g : Char) (ds rest : List Char),
      isStarGlyph g = true → ds ≠ [] → (∀ d ∈ ds, pyIsDigit d = true) →
      pyIsDigit (rest.headD 'x') = false →
      hasStarDigit (pre ++ [g]) = false →
      get_importance_stars (some (String.mk (pre ++ g :: (ds ++ rest)))) =
        digitsVal ds) := by
  refine ⟨rfl, ?_, ?_⟩
  · intro s h
    rw [get_importance_stars]
    by_cases he : s.data.isEmpty
    · rw [if_pos he]
    · rw [if_neg he, starScan_of_no_match s.data h]
  · intro pre g ds rest hg hne hds hrest hpre
    rw [get_importance_stars]
    have hdata : (String.mk (pre ++ g :: (ds ++ rest))).data =
        pre ++ g :: (ds ++ rest) := rfl
    rw [hdata]
    rw [if_neg (by simp)]
    rw [starScan_first_match pre g ds rest hg hne hds hrest hpre]

theorem importance_parser_counterexample :
    get_importance_stars (some "★12") = 12 ∧
      ¬ get_importance_stars (some "★12") ≤ 9 := by
  constructor
  · decide
  · decide

theorem importance_parser_witness :
    get_importance_stars (some (String.mk (['a', 'b'] ++ '★' :: (['４'] ++ [])))) =
      digitsVal ['４'] :=
  importance_parser_characterisation.2.2 ['a', 'b'] '★' ['４'] []
    (by decide) (by decide) (by decide) (by decide) (by decide)

/-- Claim C5: whenever the assembled publish text of a generator
variant exceeds the 2000-character cap, the text actually handed to the
publish collaborator by that variant is at most 2000 characters long
and ends with the footer configured in its ellipsis-and-footer
truncation policy; each variant is governed only by its own body
length. -/
theorem generate_tweet_truncation (ir_list : List IRRecord) (fd : String) :
    (2000 < (IRJsonToX.tweet_body ir_list fd).length →
      (IRJsonToX.generate_tweet ir_list fd 2000).length ≤ 2000 ∧
      ∃ pre : String,
        IRJsonToX.generate_tweet ir_list fd 2000 =
          pre ++ IRJsonToX.tweetFooter) ∧
    (2000 < (IRJsonToXImage.tweet_body ir_list fd).length →
      (IRJsonToXImage.generate_tweet ir_list fd 2000).length ≤ 2000 ∧
      ∃ pre : String,
        IRJsonToXImage.generate_tweet ir_list fd 2000 =
          pre ++ IRJsonToXImage.truncFooter) := by
  constructor
  · intro h1
    have e1 : IRJsonToX.generate_tweet ir_list fd 2000 =
        String.mk ((IRJsonToX.tweet_body ir_list fd).data.take 1920) ++
          IRJsonToX.truncationSuffix := by
      rw [IRJsonToX.generate_tweet, if_pos h1]
    constructor
    · rw [e1, String.length_append]
      have ht : (String.mk ((IRJsonToX.tweet_body ir_list fd).data.take 1920)).length
          ≤ 1920 := List.length_take_le _ _
      have hs : IRJsonToX.truncationSuffix.length = 39 := rfl
      omega
    · refine ⟨String.mk ((IRJsonToX.tweet_body ir_list fd).data.take 1920) ++
        "\n\n...\n\n", ?_⟩
      rw [e1, String.append_assoc]
      rfl
  · intro h2
    have e2 : IRJsonToXImage.generate_tweet ir_list fd 2000 =
        String.mk ((IRJsonToXImage.tweet_body ir_list fd).data.take 1900) ++
          IRJsonToXImage.truncationSuffix := by
      rw [IRJsonToXImage.generate_tweet, if_pos h2]
    constructor
    · rw [e2, String.length_append]
      have ht : (String.mk ((IRJsonToXImage.tweet_body ir_list fd).data.take 1900)).length
          ≤ 1900 := List.length_take_le _ _
      have hs : IRJsonToXImage.truncationSuffix.length = 40 := rfl
      omega
    · refine ⟨String.mk ((IRJsonToXImage.tweet_body ir_list fd).data.take 1900) ++
        "\n\n...\n\n", ?_⟩
      rw [e2, String.append_assoc]
      rfl

theorem pyJoin_foldl_length (sep : String) (as : List String) (acc : String) :
    acc.length ≤ (as.foldl (fun a x => a ++ sep ++ x) acc).length := by
  induction as generalizing acc with
  | nil => simp
  | cons a as ih =>
    refine le_trans ?_ (ih ((acc ++ sep) ++ a))
    rw [String.length_append, String.length_append]
    omega

theorem pyJoin_foldl_mem_length (sep : String) (as : List String) (acc x : String)
    (hx : x ∈ as) :
    x.length ≤ (as.foldl (fun a y => a ++ sep ++ y) acc).length := by
  induction as generalizing acc with
  | nil => simp at hx
  | cons a as ih =>
    rcases List.mem_cons.mp hx with rfl | hx'
    · refine le_trans ?_ (pyJoin_foldl_length sep as ((acc ++ sep) ++ x))
      rw [String.length_append]
      omega
    · exact ih ((acc ++ sep) ++ a) hx'

theorem pyJoin_mem_length (sep : String) (l : List String) (x : String)
    (hx : x ∈ l) : x.length ≤ (pyJoin sep l).length := by
  cases l with
  | nil => simp at hx
  | cons a as =>
    rw [pyJoin]
    rcases List.mem_cons.mp hx with rfl | hx'
    · exact pyJoin_foldl_length sep as x
    · exact pyJoin_foldl_mem_length sep as a x hx'

theorem longSummary_length : longSummary.length = 2112 := by
  have h64 : aChunk.length = 64 := rfl
  have h256 : aBlock256.length = 256 := by
    simp [aBlock256, String.length_append, h64]
  have h1024 : aBlock1024.length = 1024 := by
    simp [aBlock1024, String.length_append, h256]
  simp [longSummary, String.length_append, h1024, h64]

theorem tweet_body_long_v1 :
    2000 < (IRJsonToX.tweet_body [recLong] "December 15, 2025").length := by
  have hlines : IRJsonToX.generate_tweet_lines [recLong] "December 15, 2025" =
      ["🇯🇵 JapanIR Highlights", "December 15, 2025", "",
       "▪️ " ++ recLong.company_name ++ " (" ++ recLong.stock_code ++ ")",
       "   " ++ recLong.short_summary ++ " [" ++
         IRJsonToX.format_ir_type recLong.ir_type ++ "]",
       "", "📊 japanir.jp/en", "#JapanStocks #IR"] := by
    simp [IRJsonToX.generate_tweet_lines]
  have hmem : ("   " ++ recLong.short_summary ++ " [" ++
      IRJsonToX.format_ir_type recLong.ir_type ++ "]") ∈
      IRJsonToX.generate_tweet_lines [recLong] "December 15, 2025" := by
    rw [hlines]
    simp
  have hsum : recLong.short_summary.length = 2112 := longSummary_length
  have hlen : 2000 < ("   " ++ recLong.short_summary ++ " [" ++
      IRJsonToX.format_ir_type recLong.ir_type ++ "]").length := by
    have h3 : ("   " : String).length = 3 := rfl
    simp only [String.length_append, hsum, h3]
    omega
  calc 2000 < _ := hlen
    _ ≤ (IRJsonToX.tweet_body [recLong] "December 15, 2025").length :=
      pyJoin_mem_length _ _ _ hmem

theorem tweet_body_long_v2 :
    2000 < (IRJsonToXImage.tweet_body [recLong] "December 15, 2025").length := by
  have hlines : IRJsonToXImage.generate_tweet_lines [recLong] "December 15, 2025" =
      ["🇯🇵 Japan IR Highlights - " ++ "December 15, 2025", "",
       "✅ " ++ recLong.company_name ++ " (" ++ recLong.stock_code ++ ") - " ++
         pyTitleReplace recLong.ir_type,
       "", recLong.short_summary, "",
       "📊 Full analysis: japanir.jp/en", "", "#JapanStocks #IR"] := by
    simp [IRJsonToXImage.generate_tweet_lines]
  have hmem : recLong.short_summary ∈
      IRJsonToXImage.generate_tweet_lines [recLong] "December 15, 2025" := by
    rw [hlines]
    simp
  have hsum : recLong.short_summary.length = 2112 := longSummary_length
  calc 2000 < recLong.short_summary.length := by omega
    _ ≤ (IRJsonToXImage.tweet_body [recLong] "December 15, 2025").length :=
      pyJoin_mem_length _ _ _ hmem

theorem generate_tweet_truncation_witness :
    (IRJsonToX.generate_tweet [recLong] "December 15, 2025" 2000).length ≤ 2000 ∧
    (IRJsonToXImage.generate_tweet [recLong] "December 15, 2025" 2000).length ≤ 2000 :=
  ⟨((generate_tweet_truncation [recLong] "December 15, 2025").1
      tweet_body_long_v1).1,
   ((generate_tweet_truncation [recLong] "December 15, 2025").2
      tweet_body_long_v2).1⟩

/-- Counterexample to claim C1: with the Gmail credential set and every
attempt of main ending without success (the publish call is rejected, so
main returns False without raising), main_with_retry makes no
notification call at all and performs no 10-second wait, contradicting
the claimed exactly-one notification and inter-attempt delay. -/
theorem retry_no_notification_counterexample :
    c1FailingMain.success = false ∧
    main_with_retry c1FailingRun (some "pw") "20251215" "08:00" "12:00" 3 =
      ⟨false, [], 0⟩ := by
  constructor
  · rfl
  · rfl

/-- Claim C1 (amended): the orchestrator re-runs the whole pipeline on
an exception for at most 3 attempts (only attempts 1, 2, 3 are ever
consulted), sleeping 10 seconds after each non-final raising attempt;
when all 3 attempts raise and the Gmail credential is set it notifies
exactly once, with the last error message, the date and the time
window; attempts that end without success by returning False are
retried without any wait and never notify. -/
theorem retry_notification_behaviour (run : Nat → AttemptOutcome)
    (msgs : Nat → String) (gp : Option String) (ds ts te : String)
    (hrun : ∀ i, run i = AttemptOutcome.exn (msgs i))
    (hgp : truthy gp = true) :
    main_with_retry run gp ds ts te 3 =
      ⟨false, [("試行 3 失敗: " ++ msgs 3, ds, ts ++ "-" ++ te)], 2⟩ ∧
    (∀ run1 run2 : Nat → AttemptOutcome,
      (∀ i, 1 ≤ i → i ≤ 3 → run1 i = run2 i) →
      main_with_retry run1 gp ds ts te 3 = main_with_retry run2 gp ds ts te 3) ∧
    (∀ runf : Nat → AttemptOutcome, (∀ i, runf i = AttemptOutcome.ok false) →
      main_with_retry runf gp ds ts te 3 = ⟨false, [], 0⟩) := by
  refine ⟨?_, ?_, ?_⟩
  · simp only [main_with_retry, retry_loop, hrun 1, hrun 2, hrun 3, hgp]
    rfl
  · intro run1 run2 h
    simp only [main_with_retry, retry_loop,
      h 1 (by omega) (by omega), h 2 (by omega) (by omega),
      h 3 (by omega) (by omega)]
  · intro runf hf
    simp only [main_with_retry, retry_loop, hf 1, hf 2, hf 3]

theorem retry_notification_behaviour_witness :
    main_with_retry (fun _ => AttemptOutcome.exn "boom") (some "pw")
      "20251215" "08:00" "12:00" 3 =
      ⟨false, [("試行 3 失敗: boom", "20251215", "08:00-12:00")], 2⟩ :=
  (retry_notification_behaviour (fun _ => AttemptOutcome.exn "boom")
    (fun _ => "boom") (some "pw") "20251215" "08:00" "12:00"
    (fun _ => rfl) (by decide)).1

/-- Counterexample to claim C2: when the fetch stage times out, main
returns True on the first attempt (the fault is absorbed as the benign
empty case), so main_with_retry succeeds with no notification call and
the process exit code is 0, not 1. -/
theorem fetch_fault_counterexample :
    c2FaultyFetchMain = ⟨true, false, none⟩ ∧
    main_with_retry c2FaultyFetchRun (some "pw") "20251215" "08:00" "12:00" 3 =
      ⟨true, [], 0⟩ ∧
    exit_code (main_with_retry c2FaultyFetchRun (some "pw")
      "20251215" "08:00" "12:00" 3).success = 0 := by
  refine ⟨rfl, rfl, rfl⟩

/-- Claim C2 (amended): a fetch fault (timeout or request error) on an
attempt is caught inside fetch_irs, which returns the empty list; main
then takes the benign empty path and returns True immediately, so the
retried run succeeds on the first attempt, the notification collaborator
is never called, and the process exit code is 0. -/
theorem fetch_fault_is_benign (outcome : FetchOutcome) (env : Env)
    (fd : String) (dry pr : Bool) (gp : Option String) (ds ts te : String)
    (hfault : outcome = FetchOutcome.timeout ∨
      ∃ m, outcome = FetchOutcome.requestError m) :
    IRJsonToX.main outcome env fd dry pr = ⟨true, false, none⟩ ∧
    main_with_retry
      (fun _ => AttemptOutcome.ok (IRJsonToX.main outcome env fd dry pr).success)
      gp ds ts te 3 = ⟨true, [], 0⟩ ∧
    exit_code (main_with_retry
      (fun _ => AttemptOutcome.ok (IRJsonToX.main outcome env fd dry pr).success)
      gp ds ts te 3).success = 0 := by
  have hempty : fetch_irs outcome = [] := by
    rcases hfault with h | ⟨m, h⟩ <;> subst h <;> rfl
  have hmain : IRJsonToX.main outcome env fd dry pr = ⟨true, false, none⟩ := by
    rw [IRJsonToX.main]
    simp [hempty]
  refine ⟨hmain, ?_, ?_⟩ <;>
    simp [hmain, main_with_retry, retry_loop, exit_code]

theorem fetch_fault_is_benign_witness :
    IRJsonToX.main FetchOutcome.timeout envAll "December 15, 2025" true true =
      ⟨true, false, none⟩ :=
  (fetch_fault_is_benign FetchOutcome.timeout envAll "December 15, 2025"
    true true (some "pw") "20251215" "08:00" "12:00" (Or.inl rfl)).1

/-- Counterexample to claim C6: in the image-generation run with
keep_html not set, a raised Playwright error during the Capturing stage
propagates out of main and the temporary HTML file is not removed, so
the cleanup is not finally-equivalent. -/
theorem capture_cleanup_counterexample :
    (IRImageGenerator.main [rec7203] (IRImageGenerator.CaptureOutcome.raised
      "PlaywrightError") "japan_ir_highlights_20251215.png" false).html_removed
      = false ∧
    (IRImageGenerator.main [rec7203] (IRImageGenerator.CaptureOutcome.raised
      "PlaywrightError") "japan_ir_highlights_20251215.png" false).result =
      Except.error "PlaywrightError" := by
  refine ⟨rfl, rfl⟩

/-- Claim C6 (amended): the temporary HTML file is removed exactly when
generate_image returns normally (whether or not the screenshot file was
produced) and keep_html is not set; when the Capturing stage raises, the
exception propagates and the file is not removed. -/
theorem capture_cleanup_behaviour :
    (∀ (irs : List IRRecord) (b : Bool) (path : String) (keep : Bool),
      irs ≠ [] →
      (IRImageGenerator.main irs (IRImageGenerator.CaptureOutcome.captured b)
        path keep).html_removed = !keep) ∧
    (∀ (irs : List IRRecord) (msg : String) (path : String) (keep : Bool),
      (IRImageGenerator.main irs (IRImageGenerator.CaptureOutcome.raised msg)
        path keep).html_removed = false) := by
  constructor
  · intro irs b path keep hne
    have hlen : irs.length ≠ 0 := fun h => hne (List.length_eq_zero.mp h)
    rw [IRImageGenerator.main, if_neg hlen]
    cases b <;> rfl
  · intro irs msg path keep
    rw [IRImageGenerator.main]
    by_cases hlen : irs.length = 0
    · rw [if_pos hlen]
    · rw [if_neg hlen]
      rfl

theorem capture_cleanup_behaviour_witness :
    (IRImageGenerator.main [rec7203]
      (IRImageGenerator.CaptureOutcome.captured true) "out.png" false).html_removed
      = !false :=
  capture_cleanup_behaviour.1 [rec7203] true "out.png" false (by decide)

/-- Claim C9: in non-dry-run mode, if any of the four X API credential
environment variables is unset, both pipeline variants skip the publish
step entirely and still report success: main returns True with nothing
posted, the retried run succeeds, and the process exit code is 0. -/
theorem missing_credentials_skip_publish (outcome : FetchOutcome) (env : Env)
    (fd : String) (ip : Option String) (pr : Bool) (gp : Option String)
    (ds ts te : String)
    (hposts : fetch_irs outcome ≠ [])
    (hcred : env.x_api_key = none ∨ env.x_api_secret = none ∨
      env.x_access_token = none ∨ env.x_access_secret = none) :
    IRJsonToX.main outcome env fd false pr = ⟨true, false, none⟩ ∧
    IRJsonToXImage.main outcome env fd ip false pr = ⟨true, false, none⟩ ∧
    main_with_retry
      (fun _ => AttemptOutcome.ok (IRJsonToX.main outcome env fd false pr).success)
      gp ds ts te 3 = ⟨true, [], 0⟩ ∧
    exit_code (main_with_retry
      (fun _ => AttemptOutcome.ok (IRJsonToX.main outcome env fd false pr).success)
      gp ds ts te 3).success = 0 := by
  have hlen : (fetch_irs outcome).length ≠ 0 :=
    fun h => hposts (List.length_eq_zero.mp h)
  have hc : (truthy env.x_api_key && truthy env.x_api_secret &&
      truthy env.x_access_token && truthy env.x_access_secret) = false := by
    rcases hcred with h | h | h | h <;> simp [h, truthy]
  have hmain : IRJsonToX.main outcome env fd false pr = ⟨true, false, none⟩ := by
    rw [IRJsonToX.main]
    simp only [if_neg hlen, Bool.false_eq_true, if_false, hc, Bool.not_false,
      if_true]
  have hmain2 : IRJsonToXImage.main outcome env fd ip false pr =
      ⟨true, false, none⟩ := by
    rw [IRJsonToXImage.main]
    simp only [if_neg hlen, Bool.false_eq_true, if_false, hc, Bool.not_false,
      if_true]
  refine ⟨hmain, hmain2, ?_, ?_⟩ <;>
    simp [hmain, main_with_retry, retry_loop, exit_code]

theorem missing_credentials_skip_publish_witness :
    IRJsonToX.main (FetchOutcome.success [wpPostA]) envNoKey
      "December 15, 2025" false true = ⟨true, false, none⟩ :=
  (missing_credentials_skip_publish (FetchOutcome.success [wpPostA]) envNoKey
    "December 15, 2025" none true (some "pw") "20251215" "08:00" "12:00"
    (by decide) (Or.inl rfl)).1

/-- Claim C10: with GMAIL_APP_PASSWORD unset, exhausting all three
retry attempts on repeated exceptions produces no notification call at
all: main_with_retry returns False (exit code 1) without invoking the
notifier, still performing the two inter-attempt waits. -/
theorem no_password_no_notification (run : Nat → AttemptOutcome)
    (msgs : Nat → String) (ds ts te : String)
    (hrun : ∀ i, run i = AttemptOutcome.exn (msgs i)) :
    main_with_retry run none ds ts te 3 = ⟨false, [], 2⟩ ∧
    exit_code (main_with_retry run none ds ts te 3).success = 1 := by
  have h : main_with_retry run none ds ts te 3 = ⟨false, [], 2⟩ := by
    simp only [main_with_retry, retry_loop, hrun 1, hrun 2, hrun 3]
    norm_num [truthy]
  exact ⟨h, by rw [h]; rfl⟩

theorem no_password_no_notification_witness :
    main_with_retry (fun _ => AttemptOutcome.exn "boom") none
      "20251215" "08:00" "12:00" 3 = ⟨false, [], 2⟩ :=
  (no_password_no_notification (fun _ => AttemptOutcome.exn "boom")
    (fun _ => "boom") "20251215" "08:00" "12:00" (fun _ => rfl)).1
